import Mathlib

/-!
# MKL25Z4 Security System — verification of the core logic

Shallow embedding of the repository's core modules:

* `timer_driver.c`   — millisecond tick and wraparound-safe timeout predicate
* `storage_mgr.c`    — persistent configuration store (cache + flash region)
* `keypad_driver.c`  — PIN-entry protocol (`Keypad_CheckPassword`)
* `rfid_driver.c`    — card protocol engine tick and one-shot scan result
* `security_manager.c` — the security orchestrator state machine

Machine integers are modelled as `Nat` with explicit `% 2^32` (resp. `% 2^8`)
where the C code relies on unsigned wraparound.  Hardware outcomes (flash
erase/program success, card reader register reads) are passed as explicit
parameters.
-/

set_option maxRecDepth 4096

namespace SecuritySystem

/-! ## Timer driver (`timer_driver.c`)

`IsTimeout(start, dur)` computes `(uint32_t)(g_systemTick - startTick) >= durationMs`.
`sub32` is the wrapping 32-bit subtraction. -/

def U32 : Nat := 2 ^ 32

/-- Wrapping 32-bit subtraction `now - start` as in C `uint32_t` arithmetic. -/
def sub32 (now start : Nat) : Nat :=
  (now + (U32 - start % U32)) % U32

/-- `IsTimeout(startTick, durationMs)` from `timer_driver.c`. -/
def isTimeout (now start dur : Nat) : Bool :=
  dur ≤ sub32 now start

/-! ## Persistent configuration store (`storage_mgr.c`) -/

/-- `MAX_STORED_IDS` -/
def MAX_STORED_IDS : Nat := 50

/-- `STORAGE_MAGIC` (0xA5A5A5A7) -/
def STORAGE_MAGIC : Nat := 0xA5A5A5A7

/-- `SecurityConfig_t`: door PIN, admin password, authorized UID table
(50 slots, 0 = empty) and the integrity marker. -/
structure Config where
  door_pin : String
  admin_password : String
  authorized_uids : List Nat
  magic_header : Nat
  deriving DecidableEq, Repr

/-- The compiled-in defaults written by `Storage_LoadConfig` on integrity
failure (and by `Storage_FactoryReset`). -/
def defaultConfig : Config :=
  { door_pin := "1234"
    admin_password := "123456"
    authorized_uids := List.replicate MAX_STORED_IDS 0
    magic_header := STORAGE_MAGIC }

/-- Outcome of the flash hardware for one erase + program attempt. -/
structure FlashOutcome where
  eraseOk : Bool
  programOk : Bool
  deriving DecidableEq, Repr

/-- Storage manager state: the in-memory cache `g_cachedConfig` and the
flash sector contents (`none` = erased / no record programmed). -/
structure StorageSt where
  cache : Config
  flash : Option Config
  deriving DecidableEq, Repr

/-- `Storage_SaveConfig`: updates the cache first, then erases the sector and
programs the record; reports hardware failure without touching the cache. -/
def saveConfig (fo : FlashOutcome) (st : StorageSt) (inConfig : Config) :
    Bool × StorageSt :=
  let st := { st with cache := inConfig }
  if !fo.eraseOk then (false, st)
  else
    let st := { st with flash := none }
    if fo.programOk then (true, { st with flash := some inConfig })
    else (false, st)

/-- Whether the flash region holds a record with a matching integrity marker
(`stored->magic_header == STORAGE_MAGIC`). -/
def flashValid (flash : Option Config) : Bool :=
  match flash with
  | some c => c.magic_header == STORAGE_MAGIC
  | none => false

/-- `Storage_LoadConfig`: returns the loaded record, the resulting storage
state, and whether an initializing save was performed. -/
def loadConfig (fo : FlashOutcome) (st : StorageSt) :
    Config × StorageSt × Bool :=
  match st.flash with
  | some stored =>
    if stored.magic_header = STORAGE_MAGIC then (stored, st, false)
    else
      let (_, st') := saveConfig fo st defaultConfig
      (defaultConfig, st', true)
  | none =>
    let (_, st') := saveConfig fo st defaultConfig
    (defaultConfig, st', true)

/-- `Storage_UpdatePIN`: rejects only PINs longer than 4 characters, then
stores the new PIN in the cache and saves. -/
def updatePIN (fo : FlashOutcome) (st : StorageSt) (newPin : String) :
    Bool × StorageSt :=
  if newPin.length > 4 then (false, st)
  else saveConfig fo st { st.cache with door_pin := newPin }

/-- `Storage_UpdateAdminPass`: rejects only passwords longer than 9
characters, then stores and saves. -/
def updateAdminPass (fo : FlashOutcome) (st : StorageSt) (newPass : String) :
    Bool × StorageSt :=
  if newPass.length > 9 then (false, st)
  else saveConfig fo st { st.cache with admin_password := newPass }

/-- Write `uid` into the first slot holding the empty sentinel 0
(the second loop of `Storage_AddRFID`). -/
def setFirstZero : List Nat → Nat → List Nat
  | [], _ => []
  | x :: xs, uid => if x = 0 then uid :: xs else x :: setFirstZero xs uid

/-- `Storage_AddRFID`: reject zero, reject duplicates, place in the first
empty slot and save, or report the table full. -/
def addRFID (fo : FlashOutcome) (st : StorageSt) (uid : Nat) :
    Bool × StorageSt :=
  if uid = 0 then (false, st)
  else if uid ∈ st.cache.authorized_uids then (false, st)
  else if 0 ∈ st.cache.authorized_uids then
    saveConfig fo st
      { st.cache with authorized_uids := setFirstZero st.cache.authorized_uids uid }
  else (false, st)

/-! ## Keypad driver (`keypad_driver.c`): the PIN-entry protocol

Only the password-entry layer is modelled (`Keypad_CheckPassword` /
`Keypad_GetKeyNonBlocking`); the matrix scan and 20 ms debounce run in the
interrupt context and surface here solely as the pending latched key
`g_pressed_key`. -/

/-- `PASS_LEN` -/
def PASS_LEN : Nat := 4

/-- `TIMEOUT_MS` for the keypad entry buffer. -/
def KP_TIMEOUT_MS : Nat := 5000

/-- Keypad driver state visible to the main context: the pending latched key
event `g_pressed_key` (`none` = 0), the entry buffer `kp_buffer` up to
`kp_index`, and `last_key_time_kp`. -/
structure KeypadSt where
  pressedKey : Option Char
  buffer : List Char
  lastKeyTime : Nat
  deriving DecidableEq, Repr

/-- `Keypad_GetKeyNonBlocking`: consume and clear the pending key event. -/
def keypadGetKey (ks : KeypadSt) : Option Char × KeypadSt :=
  (ks.pressedKey, { ks with pressedKey := none })

/-- `Security_CheckPassword`: `strcmp` of the submitted buffer against the
cached door PIN. -/
def securityCheckPassword (cfg : Config) (inputPin : String) : Bool :=
  inputPin == cfg.door_pin

/-- `Keypad_CheckPassword`: clear the buffer on 5 s inactivity, consume one
key; `#` aborts (returns 2), otherwise append and, on the 4th character,
compare against the configured door PIN (1 = match, -1 = mismatch,
0 = still accumulating / no key). -/
def keypadCheckPassword (cfg : Config) (now : Nat) (ks : KeypadSt) :
    Int × KeypadSt :=
  let ks :=
    if 0 < ks.buffer.length ∧ isTimeout now ks.lastKeyTime KP_TIMEOUT_MS then
      { ks with buffer := [] }
    else ks
  match keypadGetKey ks with
  | (none, ks) => (0, ks)
  | (some key, ks) =>
    let ks := { ks with lastKeyTime := now % U32 }
    if key = '#' then (2, { ks with buffer := [] })
    else
      let ks :=
        if ks.buffer.length < PASS_LEN then { ks with buffer := ks.buffer ++ [key] }
        else ks
      if ks.buffer.length = PASS_LEN then
        if securityCheckPassword cfg (String.mk ks.buffer) then
          (1, { ks with buffer := [] })
        else (-1, { ks with buffer := [] })
      else (0, ks)

/-! ## Card protocol engine (`rfid_driver.c`) -/

/-- FSM states of the card protocol engine. -/
inductive RfidFsm where
  | idle | reqSent | anticollSent | haltSent
  deriving DecidableEq, Repr

/-- Driver state: FSM position, the two timers, the one-shot scan result
`g_last_valid_result`, and the latched UID `g_last_uid` (5 bytes) with its
latch timestamp `g_last_uid_time`. -/
structure RfidSt where
  fsm : RfidFsm
  timer : Nat
  nextScanTime : Nat
  lastValidResult : Nat
  lastUid : List Nat
  lastUidTime : Nat
  deriving DecidableEq, Repr

/-- Reset values of the driver statics. -/
def rfidInit : RfidSt :=
  { fsm := .idle, timer := 0, nextScanTime := 0, lastValidResult := 0
    lastUid := List.replicate 5 0, lastUidTime := 0 }

/-- What the reader hardware reports during one tick: the `ComIrqReg` and
`ErrorReg` reads, the `FIFOLevelReg` read, the successive `FIFODataReg`
reads, and the indeterminate stack bytes behind an uninitialized `uid[i]`. -/
structure RfidHw where
  irq : Nat
  err : Nat
  fifoLevel : Nat
  fifoData : List Nat
  stack : List Nat
  deriving Repr

/-- One invocation of `RFID_Tick`. -/
def rfidTick (hw : RfidHw) (now : Nat) (st : RfidSt) : RfidSt :=
  match st.fsm with
  | .idle =>
    let st :=
      if isTimeout now st.lastUidTime 500 then
        { st with lastUid := List.replicate 5 0 }
      else st
    if isTimeout now st.nextScanTime 100 then
      { st with nextScanTime := now % U32, fsm := .reqSent, timer := now % U32 }
    else st
  | .reqSent =>
    if isTimeout now st.timer 25 then { st with fsm := .idle }
    else if hw.irq &&& 0x30 ≠ 0 then
      if hw.err &&& 0x1B = 0 then { st with fsm := .anticollSent, timer := now % U32 }
      else { st with fsm := .idle }
    else st
  | .anticollSent =>
    if isTimeout now st.timer 25 then { st with fsm := .idle }
    else if hw.irq &&& 0x30 ≠ 0 then
      if hw.err &&& 0x1B = 0 then
        let nn := min (hw.fifoLevel % 256) 5
        let uid := (List.range 5).map fun i =>
          if i < nn then hw.fifoData.getD i 0 % 256 else hw.stack.getD i 0 % 256
        let serNumCheck :=
          (uid.getD 0 0) ^^^ (uid.getD 1 0) ^^^ (uid.getD 2 0) ^^^ (uid.getD 3 0)
        if serNumCheck = uid.getD 4 0 then
          let same := uid.getD 0 0 = st.lastUid.getD 0 0
            ∧ uid.getD 1 0 = st.lastUid.getD 1 0
            ∧ uid.getD 2 0 = st.lastUid.getD 2 0
            ∧ uid.getD 3 0 = st.lastUid.getD 3 0
          if same then
            -- "Card still present; update timestamp": the C body is empty.
            { st with fsm := .idle }
          else
            { st with lastUid := uid, lastUidTime := now % U32,
                      lastValidResult := 1, fsm := .idle }
        else { st with fsm := .idle }
      else { st with fsm := .idle }
    else st
  | .haltSent => { st with fsm := .idle }

/-- `RFID_GetLastScanResult` (also `RFID_CheckScan`): return and clear the
one-shot result. -/
def rfidGetLastScanResult (st : RfidSt) : Nat × RfidSt :=
  (st.lastValidResult, { st with lastValidResult := 0 })

/-- `RFID_GetLastUID`: the latched 4 bytes packed big-endian. -/
def rfidGetLastUID (st : RfidSt) : Nat :=
  ((st.lastUid.getD 0 0) <<< 24 ||| (st.lastUid.getD 1 0) <<< 16 |||
   (st.lastUid.getD 2 0) <<< 8 ||| (st.lastUid.getD 3 0)) % U32

/-! ## Security orchestrator (`security_manager.c`) -/

/-- `SystemState_t` -/
inductive SysState where
  | armed | entryDelay | exitDelay | triggered | disarmed | locked
  deriving DecidableEq, Repr

/-- The static state variables of `security_manager.c`, including the
three `static int toggle` locals of `Security_Update`. -/
structure SecState where
  currentState : SysState
  stateEntryTime : Nat
  lastAlarmToggle : Nat
  alarmVolume : Int
  failedAttempts : Nat
  doorUnlockedMsg : Bool
  waitingForAutoLock : Bool
  trigToggle : Bool
  lockToggle : Bool
  exitToggle : Bool
  deriving DecidableEq, Repr

/-- The static initializers: note `currentState` starts as `STATE_TRIGGERED`
until `Security_Init` runs. -/
def initialSecState : SecState :=
  { currentState := .triggered, stateEntryTime := 0, lastAlarmToggle := 0
    alarmVolume := 10, failedAttempts := 0, doorUnlockedMsg := false
    waitingForAutoLock := false, trigToggle := false, lockToggle := false
    exitToggle := false }

/-- The whole mutable world the orchestrator touches: its own state, the two
input engines, the motion-sensor one-shot flag, the cached configuration and
the lock actuator position. -/
structure World where
  sec : SecState
  keypad : KeypadSt
  rfid : RfidSt
  pir : Bool
  cfg : Config
  servoClosed : Bool
  deriving Repr

/-- The authorized-table lookup performed on a scanned UID
(`authorized_uids[i] != 0 && authorized_uids[i] == scannedUid`). -/
def uidAuthorized (cfg : Config) (uid : Nat) : Bool :=
  cfg.authorized_uids.any fun u => u ≠ 0 && u = uid

/-- `Check_Auth`: poll the keypad protocol and the card engine, resolve a
present card against the authorized table; 1 = valid, -1 = invalid,
0 = none. -/
def checkAuth (cfg : Config) (t : Nat) (ks : KeypadSt) (rf : RfidSt) :
    Int × KeypadSt × RfidSt :=
  let (kp, ks) := keypadCheckPassword cfg t ks
  let (rfStatus, rf) := rfidGetLastScanResult rf
  let rfAuth : Int :=
    if 0 < rfStatus then
      if uidAuthorized cfg (rfidGetLastUID rf) then 1 else -1
    else 0
  if kp = 1 ∨ rfAuth = 1 then (1, ks, rf)
  else if kp = -1 ∨ rfAuth = -1 then (-1, ks, rf)
  else (0, ks, rf)

/-- `Check_Brute_Force`: increment the (8-bit) failed-attempt counter; at 3
or more (`BRUTE_FORCE_LIMIT`), lock out with maximum siren volume. -/
def checkBruteForce (s : SecState) (t : Nat) : SecState :=
  if 3 ≤ (s.failedAttempts + 1) % 256 then
    { s with failedAttempts := (s.failedAttempts + 1) % 256
             currentState := .locked, stateEntryTime := t % U32, alarmVolume := 50 }
  else { s with failedAttempts := (s.failedAttempts + 1) % 256 }

/-- The common successful-authentication transition into `STATE_DISARMED`. -/
def enterDisarmed (s : SecState) (t : Nat) : SecState :=
  { s with currentState := .disarmed, stateEntryTime := t % U32
           doorUnlockedMsg := false, waitingForAutoLock := false
           failedAttempts := 0 }

/-- `Security_Init`: drain the three one-shot input sources, arm, close the
lock and stamp the entry time. -/
def securityInit (w : World) (now : Nat) : World :=
  { w with pir := false
           rfid := (rfidGetLastScanResult w.rfid).2
           keypad := (keypadGetKey w.keypad).2
           sec := { w.sec with currentState := .armed, stateEntryTime := now % U32 }
           servoClosed := true }

/-- The `STATE_ARMED` case of `Security_Update`: poll the keypad protocol
and the card engine inline, authorize or apply the brute-force policy, or
react to a motion edge / wake-up key. -/
def armedStep (w : World) (t : Nat) : World :=
  let (kp, ks) := keypadCheckPassword w.cfg t w.keypad
  let (rfStatus, rf) := rfidGetLastScanResult w.rfid
  let rfAuth : Int :=
    if 0 < rfStatus then
      if uidAuthorized w.cfg (rfidGetLastUID rf) then 1 else -1
    else 0
  if kp = 1 ∨ rfAuth = 1 then
    { w with sec := enterDisarmed w.sec t, keypad := ks, rfid := rf }
  else if kp = -1 ∨ rfAuth = -1 then
    { w with sec := checkBruteForce w.sec t, keypad := ks, rfid := rf }
  else if w.pir ∨ kp = 2 then
    { w with sec := { w.sec with currentState := .entryDelay, stateEntryTime := t }
             keypad := ks, rfid := rf, pir := false, servoClosed := true }
  else
    { w with keypad := ks, rfid := rf, pir := false }

/-- The `STATE_ENTRY_DELAY` case: escalate to `STATE_TRIGGERED` after
5000 ms, then (in the same call) consult `Check_Auth`. -/
def entryDelayStep (w : World) (t : Nat) : World :=
  let s :=
    if isTimeout t w.sec.stateEntryTime 5000 then
      { w.sec with alarmVolume := 10, currentState := .triggered, lastAlarmToggle := t }
    else w.sec
  let (auth, ks, rf) := checkAuth w.cfg t w.keypad w.rfid
  if auth = 1 then { w with sec := enterDisarmed s t, keypad := ks, rfid := rf }
  else if auth = -1 then
    { w with sec := checkBruteForce s t, keypad := ks, rfid := rf }
  else { w with sec := s, keypad := ks, rfid := rf }

/-- The `STATE_TRIGGERED` case: 500 ms alarm toggle, then `Check_Auth`;
invalid credentials raise the volume by 10 (capped at 50) before the
brute-force policy runs. -/
def triggeredStep (w : World) (t : Nat) : World :=
  let s :=
    if isTimeout t w.sec.lastAlarmToggle 500 then
      { w.sec with lastAlarmToggle := t, trigToggle := !w.sec.trigToggle }
    else w.sec
  let (auth, ks, rf) := checkAuth w.cfg t w.keypad w.rfid
  if auth = 1 then { w with sec := enterDisarmed s t, keypad := ks, rfid := rf }
  else if auth = -1 then
    let vol := s.alarmVolume + 10
    let vol := if vol > 50 then 50 else vol
    { w with sec := checkBruteForce { s with alarmVolume := vol } t
             keypad := ks, rfid := rf }
  else { w with sec := s, keypad := ks, rfid := rf }

/-- The `STATE_LOCKED` case: 100 ms siren toggle, drain both input engines,
and after the 10000 ms penalty move to `STATE_TRIGGERED`, reset the
failed-attempt counter and flush stale input again. -/
def lockedStep (w : World) (t : Nat) : World :=
  let s :=
    if isTimeout t w.sec.lastAlarmToggle 100 then
      { w.sec with lastAlarmToggle := t, lockToggle := !w.sec.lockToggle }
    else w.sec
  let (_, rf) := rfidGetLastScanResult w.rfid
  let (_, ks) := keypadGetKey w.keypad
  if isTimeout t s.stateEntryTime 10000 then
    let (_, rf) := rfidGetLastScanResult rf
    let (_, ks) := keypadGetKey ks
    { w with sec := { s with currentState := .triggered, lastAlarmToggle := t
                             failedAttempts := 0 }
             keypad := ks, rfid := rf }
  else { w with sec := s, keypad := ks, rfid := rf }

/-- The `STATE_EXIT_DELAY` case: 1000 ms indicator blink; after 10000 ms
return to `STATE_ARMED`, flushing the motion, card and key events. -/
def exitDelayStep (w : World) (t : Nat) : World :=
  let s :=
    if isTimeout t w.sec.lastAlarmToggle 1000 then
      { w.sec with lastAlarmToggle := t, exitToggle := !w.sec.exitToggle }
    else w.sec
  if isTimeout t s.stateEntryTime 10000 then
    let (_, rf) := rfidGetLastScanResult w.rfid
    let (_, ks) := keypadGetKey w.keypad
    { w with sec := { s with currentState := .armed }
             keypad := ks, rfid := rf, pir := false }
  else { w with sec := s }

/-- The `STATE_DISARMED` case: 5000 ms unlock window, then auto-lock and a
1000 ms settle delay before `STATE_EXIT_DELAY`. -/
def disarmedStep (w : World) (t : Nat) : World :=
  let elapsed := sub32 t w.sec.stateEntryTime
  if elapsed < 5000 then
    if !w.sec.doorUnlockedMsg then
      { w with sec := { w.sec with doorUnlockedMsg := true }, servoClosed := false }
    else w
  else
    let sv : SecState × Bool :=
      if !w.sec.waitingForAutoLock then
        ({ w.sec with stateEntryTime := t, waitingForAutoLock := true }, true)
      else (w.sec, w.servoClosed)
    let s := sv.1
    if isTimeout t s.stateEntryTime 1000 then
      { w with sec := { s with currentState := .exitDelay, stateEntryTime := t
                               waitingForAutoLock := false }
               servoClosed := sv.2 }
    else { w with sec := s, servoClosed := sv.2 }

/-- One invocation of `Security_Update`; `now` is the tick value sampled by
`GetTick()` during the call. Processing is discarded during the 2000 ms
startup settle window, then dispatches on the current state. -/
def securityUpdate (w : World) (now : Nat) : World :=
  let t := now % U32
  if t < 2000 then w
  else
    match w.sec.currentState with
    | .armed => armedStep w t
    | .entryDelay => entryDelayStep w t
    | .triggered => triggeredStep w t
    | .locked => lockedStep w t
    | .exitDelay => exitDelayStep w t
    | .disarmed => disarmedStep w t

/-- Reachable worlds: boot (statics initialized, then `Security_Init`),
arbitrary environment activity that does not touch the orchestrator's own
state (interrupts latching keys, card scans, motion edges, admin config
changes), and orchestrator cycles. -/
inductive Reachable : World → Prop where
  | boot : ∀ w now, w.sec = initialSecState → Reachable (securityInit w now)
  | env : ∀ w w', Reachable w → w'.sec = w.sec → Reachable w'
  | step : ∀ w now, Reachable w → Reachable (securityUpdate w now)

/-! ## Protocol-level helpers and concrete scenarios -/

/-- The keypad charset usable inside a PIN: the 4x4 `key_map` characters
without the abort key `#` (pressing `#` aborts PIN entry before the
character could be appended). -/
def pinChars : List Char :=
  ['0', '1', '2', '3', '4', '5', '6', '7', '8', '9', 'A', 'B', 'C', 'D', '*']

/-- The full `key_map` charset of the 4x4 keypad. -/
def keypadChars : List Char :=
  ['0', '1', '2', '3', '4', '5', '6', '7', '8', '9', 'A', 'B', 'C', 'D', '*', '#']

/-- Submit a sequence of keys through `Keypad_CheckPassword`, one call per
key; returns the last call's result together with the final entry state. -/
def feedKeys (cfg : Config) (now : Nat) (ks : KeypadSt) : List Char → Int × KeypadSt
  | [] => (0, ks)
  | c :: rest =>
    let r := keypadCheckPassword cfg now { ks with pressedKey := some c }
    match rest with
    | [] => r
    | _ :: _ => feedKeys cfg now r.2 rest

/-- An idle keypad session: no pending key, empty buffer. -/
def freshKeypad : KeypadSt := { pressedKey := none, buffer := [], lastKeyTime := 0 }

/-- A storage state holding the defaults both in cache and in flash. -/
def defaultStorage : StorageSt := { cache := defaultConfig, flash := some defaultConfig }

/-- A flash hardware that succeeds at both erase and program. -/
def flashOk : FlashOutcome := { eraseOk := true, programOk := true }

/-- Reader hardware responses while a card with UID bytes `01 02 03 04`
(checksum byte `04`) is present in the field: device ready, no error, a full
5-byte FIFO answer at every poll. -/
def cardHw : RfidHw :=
  { irq := 0x30, err := 0, fifoLevel := 5, fifoData := [1, 2, 3, 4, 4]
    stack := [0, 0, 0, 0, 0] }

/-- Run `RFID_Tick` against the present card at each given tick value. -/
def rfidRun (times : List Nat) (st : RfidSt) : RfidSt :=
  times.foldl (fun s t => rfidTick cardHw t s) st

/-- One complete scan (request, ready, anticollision answer) of the present
card starting at tick `t`, followed by the orchestrator consuming the
one-shot result. -/
def scanAndConsume (t : Nat) (st : RfidSt) : Nat × RfidSt :=
  rfidGetLastScanResult (rfidRun [t, t + 1, t + 2] st)

/-- First scan of the held card, starting from the reset driver state. -/
def heldScan1 : Nat × RfidSt := scanAndConsume 1000 rfidInit
/-- Second scan of the same held card 100 ms later. -/
def heldScan2 : Nat × RfidSt := scanAndConsume 1100 heldScan1.2
/-- A later scan of the same held card, 510 ms after the first latch. -/
def heldScan3 : Nat × RfidSt := scanAndConsume 1510 heldScan2.2

/-- A just-booted world: statics at their initializers, defaults loaded. -/
def bootWorld : World :=
  { sec := initialSecState, keypad := freshKeypad, rfid := rfidInit
    pir := false, cfg := defaultConfig, servoClosed := false }

/-- An armed world in which an unknown card (UID `01020304`, not in the
empty authorized table) has just been scanned. -/
def armedBadCardWorld : World :=
  { sec := { initialSecState with currentState := .armed }
    keypad := freshKeypad
    rfid := { rfidInit with lastValidResult := 1, lastUid := [1, 2, 3, 4, 4] }
    pir := false, cfg := defaultConfig, servoClosed := true }

/-- An armed world in which an authorized card (UID `0x01020304`, present in
the table) has just been scanned. -/
def armedGoodCardWorld : World :=
  { armedBadCardWorld with
      cfg := { defaultConfig with authorized_uids := setFirstZero defaultConfig.authorized_uids 0x01020304 } }

/-- Re-present the (still unauthorized) card: the reader raises the one-shot
scan flag again. -/
def representCard (w : World) : World :=
  { w with rfid := { w.rfid with lastValidResult := 1 } }

/-- Three orchestrator cycles from `armedBadCardWorld`, the unknown card
re-presented before the second and third cycle. -/
def tripleInvalid : World :=
  securityUpdate (representCard (securityUpdate (representCard
    (securityUpdate armedBadCardWorld 2000)) 2100)) 2200

/-- A locked world with a pending (authorized) card scan and a pending key,
used to exhibit input draining. -/
def lockedWorld : World :=
  { sec := { initialSecState with currentState := .locked, stateEntryTime := 2000
                                  alarmVolume := 50, failedAttempts := 3 }
    keypad := { freshKeypad with pressedKey := some '5' }
    rfid := { rfidInit with lastValidResult := 1, lastUid := [1, 2, 3, 4, 4] }
    pir := false
    cfg := { defaultConfig with authorized_uids := setFirstZero defaultConfig.authorized_uids 0x01020304 }
    servoClosed := true }

/-- The orchestrator-state part of the `STATE_LOCKED` branch of
`Security_Update`, written as a function of the orchestrator state alone
(proved equal to the branch below): while locked, the successor state does
not depend on the input engines, the sensor or the configuration. -/
def lockedSecNext (s : SecState) (t : Nat) : SecState :=
  let s1 :=
    if isTimeout t s.lastAlarmToggle 100 then
      { s with lastAlarmToggle := t, lockToggle := !s.lockToggle }
    else s
  if isTimeout t s1.stateEntryTime 10000 then
    { s1 with currentState := .triggered, lastAlarmToggle := t, failedAttempts := 0 }
  else s1

/-- The brute-force / lockout invariant on the orchestrator state: outside
`STATE_LOCKED` at most 2 failed attempts are on record, and the counter
never exceeds the limit 3. -/
def SecInv (s : SecState) : Prop :=
  (s.currentState ≠ .locked → s.failedAttempts ≤ 2) ∧ s.failedAttempts ≤ 3

/-! ## General lemmas -/

theorem sub32_mod_self (n : Nat) : sub32 n (n % U32) = 0 := by
  have h := Nat.div_add_mod n U32
  have hlt : n % U32 < U32 := Nat.mod_lt _ (by decide)
  unfold sub32
  have he : (n % U32) % U32 = n % U32 := Nat.mod_eq_of_lt hlt
  rw [he]
  have : n + (U32 - n % U32) = U32 * (n / U32) + U32 := by omega
  rw [this]
  simp [Nat.add_mod, Nat.mul_mod_right]

theorem isTimeout_keypad_refresh (n : Nat) :
    isTimeout n (n % U32) KP_TIMEOUT_MS = false := by
  unfold isTimeout
  rw [sub32_mod_self]
  decide

theorem saveConfig_cache (fo : FlashOutcome) (st : StorageSt) (c : Config) :
    (saveConfig fo st c).2.cache = c := by
  unfold saveConfig
  rcases fo with ⟨e, p⟩
  cases e <;> cases p <;> rfl

theorem addRFID_dup (fo : FlashOutcome) (st : StorageSt) (uid : Nat)
    (hmem : uid ∈ st.cache.authorized_uids) : addRFID fo st uid = (false, st) := by
  unfold addRFID
  by_cases h0 : uid = 0 <;> simp [h0, hmem]

theorem mem_setFirstZero (l : List Nat) (uid : Nat) (h : 0 ∈ l) :
    uid ∈ setFirstZero l uid := by
  induction l with
  | nil => cases h
  | cons x xs ih =>
    by_cases hx : x = 0
    · simp [setFirstZero, hx]
    · rcases List.mem_cons.mp h with h0 | h0
      · exact absurd h0.symm hx
      · simp [setFirstZero, hx, ih h0]

/-! ## C7 — `Storage_LoadConfig` -/

/-- C7: when the stored integrity marker does not match `STORAGE_MAGIC`,
`Storage_LoadConfig` yields the compiled-in defaults (PIN "1234", admin
password "123456", all 50 slots zero, marker set) and immediately performs a
`Storage_SaveConfig` of those defaults; when the marker matches it returns
the stored record with the storage state untouched. -/
theorem c7_load_config (fo : FlashOutcome) (st : StorageSt) :
    (flashValid st.flash = false →
        loadConfig fo st = (defaultConfig, (saveConfig fo st defaultConfig).2, true)
        ∧ defaultConfig.door_pin = "1234"
        ∧ defaultConfig.admin_password = "123456"
        ∧ defaultConfig.authorized_uids = List.replicate 50 0
        ∧ defaultConfig.magic_header = STORAGE_MAGIC)
    ∧ (∀ c, st.flash = some c → c.magic_header = STORAGE_MAGIC →
        loadConfig fo st = (c, st, false)) := by
  constructor
  · intro hbad
    refine ⟨?_, rfl, rfl, rfl, rfl⟩
    unfold loadConfig
    unfold flashValid at hbad
    match hf : st.flash with
    | none => simp [hf]
    | some c =>
      rw [hf] at hbad
      simp only [beq_eq_false_iff_ne, ne_eq] at hbad
      simp [hf, hbad]
  · intro c hf hm
    unfold loadConfig
    simp [hf, hm]

/-- C7 witness: an erased region loads the defaults and re-initializes the
sector; a valid region loads back unchanged. -/
theorem c7_load_config_witness :
    (loadConfig flashOk { cache := defaultConfig, flash := none } =
      (defaultConfig,
       (saveConfig flashOk { cache := defaultConfig, flash := none } defaultConfig).2,
       true))
    ∧ loadConfig flashOk defaultStorage = (defaultConfig, defaultStorage, false) :=
  ⟨((c7_load_config flashOk { cache := defaultConfig, flash := none }).1 (by decide)).1,
   (c7_load_config flashOk defaultStorage).2 defaultConfig rfl (by decide)⟩

/-! ## C8 — `Storage_SaveConfig` cache-before-persist -/

/-- C8: `Storage_SaveConfig` overwrites the in-memory cache with the new
record in every outcome, and when the erase or the program step fails it
reports failure while the cache still holds the new record. -/
theorem c8_save_cache_first (fo : FlashOutcome) (st : StorageSt) (inConfig : Config) :
    (saveConfig fo st inConfig).2.cache = inConfig
    ∧ (fo.eraseOk = false ∨ fo.programOk = false →
        (saveConfig fo st inConfig).1 = false
        ∧ (saveConfig fo st inConfig).2.cache = inConfig) := by
  refine ⟨saveConfig_cache fo st inConfig, ?_⟩
  intro hfail
  refine ⟨?_, saveConfig_cache fo st inConfig⟩
  unfold saveConfig
  rcases fo with ⟨e, p⟩
  rcases hfail with h | h
  · simp_all
  · cases e <;> simp_all

/-- C8 witness: a failed program step leaves the new PIN in the cache while
reporting failure. -/
theorem c8_save_cache_first_witness :
    (saveConfig { eraseOk := true, programOk := false } defaultStorage
        { defaultConfig with door_pin := "9999" }).2.cache =
      { defaultConfig with door_pin := "9999" }
    ∧ (saveConfig { eraseOk := true, programOk := false } defaultStorage
        { defaultConfig with door_pin := "9999" }).1 = false :=
  ⟨(c8_save_cache_first _ defaultStorage _).1,
   ((c8_save_cache_first { eraseOk := true, programOk := false } defaultStorage
      { defaultConfig with door_pin := "9999" }).2 (Or.inr rfl)).1⟩

/-! ## C4 — `Storage_UpdatePIN` length check -/

/-- C4 counterexample: "12" has length 2 ≠ 4, yet `Storage_UpdatePIN`
accepts it (the code only rejects lengths greater than 4): the call returns
true and the cached door PIN becomes "12". -/
theorem c4_counterexample :
    ("12" : String).length ≠ 4
    ∧ (updatePIN flashOk defaultStorage "12").1 = true
    ∧ (updatePIN flashOk defaultStorage "12").2.cache.door_pin = "12"
    ∧ (updatePIN flashOk defaultStorage "12").2.cache.door_pin ≠
        defaultStorage.cache.door_pin := by
  refine ⟨by decide, rfl, rfl, by decide⟩

/-- C4 (amended): `Storage_UpdatePIN` rejects an input string and leaves the
store unchanged exactly when the length exceeds 4; shorter inputs
(length ≤ 4, including the empty string) are accepted and stored — the
exact-length-4 rule is enforced one layer up, in `Security_SetPassword`. -/
theorem c4_update_pin_reject_long (fo : FlashOutcome) (st : StorageSt) (p : String)
    (h : 4 < p.length) : updatePIN fo st p = (false, st) := by
  unfold updatePIN
  simp [h]

/-- C4 witness: a 5-character PIN is rejected with the store unchanged. -/
theorem c4_update_pin_reject_long_witness :
    updatePIN flashOk defaultStorage "12345" = (false, defaultStorage) :=
  c4_update_pin_reject_long flashOk defaultStorage "12345" (by decide)

/-! ## C9 — `Storage_UpdateAdminPass` length check -/

/-- C9 counterexample: the empty string has length 0, outside 1–9, yet
`Storage_UpdateAdminPass` accepts it (the code only rejects lengths greater
than 9): the call returns true and the cached admin password becomes "". -/
theorem c9_counterexample :
    ("" : String).length = 0
    ∧ (updateAdminPass flashOk defaultStorage "").1 = true
    ∧ (updateAdminPass flashOk defaultStorage "").2.cache.admin_password = ""
    ∧ (updateAdminPass flashOk defaultStorage "").2.cache.admin_password ≠
        defaultStorage.cache.admin_password := by
  refine ⟨rfl, rfl, rfl, by decide⟩

/-- C9 (amended): `Storage_UpdateAdminPass` rejects an input string and
leaves the store unchanged exactly when the length exceeds 9; the empty
string is accepted at the Store level — the 1–9 lower bound is enforced one
layer up, in `Security_SetAdminPassword`. -/
theorem c9_update_admin_reject_long (fo : FlashOutcome) (st : StorageSt) (p : String)
    (h : 9 < p.length) : updateAdminPass fo st p = (false, st) := by
  unfold updateAdminPass
  simp [h]

/-- C9 witness: a 10-character password is rejected with the store
unchanged. -/
theorem c9_update_admin_reject_long_witness :
    updateAdminPass flashOk defaultStorage "0123456789" = (false, defaultStorage) :=
  c9_update_admin_reject_long flashOk defaultStorage "0123456789" (by decide)

/-! ## C6 — `Storage_AddRFID` rejections -/

/-- C6: `Storage_AddRFID` rejects the zero identifier, rejects an identifier
already present (in particular, a second add of the same non-zero identifier
fails with the table unchanged), and with all 50 slots occupied rejects a
further distinct identifier (capacity exhaustion); every rejection leaves
the store unchanged. -/
theorem c6_add_rfid (fo : FlashOutcome) (st : StorageSt) (uid : Nat) :
    addRFID fo st 0 = (false, st)
    ∧ (uid ∈ st.cache.authorized_uids → addRFID fo st uid = (false, st))
    ∧ (uid ≠ 0 → uid ∉ st.cache.authorized_uids →
        st.cache.authorized_uids.length = MAX_STORED_IDS →
        0 ∉ st.cache.authorized_uids → addRFID fo st uid = (false, st))
    ∧ (uid ≠ 0 → uid ∉ st.cache.authorized_uids → 0 ∈ st.cache.authorized_uids →
        uid ∈ (addRFID fo st uid).2.cache.authorized_uids
        ∧ addRFID fo (addRFID fo st uid).2 uid = (false, (addRFID fo st uid).2)) := by
  refine ⟨by simp [addRFID], addRFID_dup fo st uid, ?_, ?_⟩
  · intro h0 hmem _ hfull
    unfold addRFID
    simp [h0, hmem, hfull]
  · intro h0 hmem hslot
    have hres : (addRFID fo st uid).2.cache.authorized_uids =
        setFirstZero st.cache.authorized_uids uid := by
      unfold addRFID
      simp only [h0, hmem, hslot, if_false, if_true, if_neg, if_pos]
      rw [saveConfig_cache]
    have huidmem : uid ∈ (addRFID fo st uid).2.cache.authorized_uids := by
      rw [hres]; exact mem_setFirstZero _ _ hslot
    exact ⟨huidmem, addRFID_dup fo (addRFID fo st uid).2 uid huidmem⟩

/-- C6 witness: with the defaults (empty table) adding UID 7 succeeds and a
second add of 7 fails with the table unchanged; the zero UID is rejected;
a full 50-slot table rejects a distinct identifier. -/
theorem c6_add_rfid_witness :
    addRFID flashOk defaultStorage 0 = (false, defaultStorage)
    ∧ (7 ∈ (addRFID flashOk defaultStorage 7).2.cache.authorized_uids
       ∧ addRFID flashOk (addRFID flashOk defaultStorage 7).2 7 =
          (false, (addRFID flashOk defaultStorage 7).2))
    ∧ addRFID flashOk
        { cache := { defaultConfig with authorized_uids := List.replicate 50 1 }
          flash := none } 7 =
      (false,
       { cache := { defaultConfig with authorized_uids := List.replicate 50 1 }
         flash := none }) :=
  ⟨(c6_add_rfid flashOk defaultStorage 7).1,
   (c6_add_rfid flashOk defaultStorage 7).2.2.2 (by decide) (by decide) (by decide),
   (c6_add_rfid flashOk
      { cache := { defaultConfig with authorized_uids := List.replicate 50 1 }
        flash := none } 7).2.2.1 (by decide) (by decide) (by decide) (by decide)⟩

/-! ## C10 — pre-initialization state and `Security_Init` -/

/-- C10: before `Security_Init` runs, the orchestrator's state variable
holds `STATE_TRIGGERED` (not `STATE_ARMED`); `Security_Init` leaves the
system armed with the lock commanded closed and all three one-shot input
sources (motion edge, card-scan flag, pending keypad key) consumed. -/
theorem c10_security_init (w : World) (now : Nat) :
    initialSecState.currentState = SysState.triggered
    ∧ initialSecState.currentState ≠ SysState.armed
    ∧ (securityInit w now).sec.currentState = SysState.armed
    ∧ (securityInit w now).servoClosed = true
    ∧ (securityInit w now).pir = false
    ∧ (securityInit w now).rfid.lastValidResult = 0
    ∧ (securityInit w now).keypad.pressedKey = none := by
  refine ⟨rfl, by decide, ?_, rfl, rfl, rfl, rfl⟩
  simp [securityInit]

/-! ## C5 — card debounce in `RFID_Tick` -/

/-- C5 (code bug exhibit): a card presented at tick 1000 and answering every
poll with the same UID raises the one-shot event on the first scan and, as
the claim states, no event on a re-read 100 ms later — but because the
"card still present" branch of `RFID_Tick` fails to refresh
`g_last_uid_time` (its body is only the comment "update timestamp"), the
idle-state clear fires 500 ms after the first latch even though the card
was never absent, and the scan at 1510–1512 raises a second "new card"
event for the continuously present card. -/
theorem c5_held_card_second_event :
    heldScan1.1 = 1
    ∧ heldScan2.1 = 0
    ∧ heldScan3.1 = 1
    ∧ heldScan3.2.lastUid = [1, 2, 3, 4, 4] := by
  refine ⟨by decide, by decide, by decide, by decide⟩

/-! ## C3 — PIN round-trip through the keypad protocol -/

theorem mem_pinChars_ne_hash {c : Char} (h : c ∈ pinChars) : c ≠ '#' := by
  intro heq
  subst heq
  revert h
  decide

theorem updatePIN_cache (fo : FlashOutcome) (st : StorageSt) (s : String)
    (h : ¬ 4 < s.length) :
    (updatePIN fo st s).2.cache = { st.cache with door_pin := s } := by
  unfold updatePIN
  rw [if_neg h]
  exact saveConfig_cache fo st _

theorem keypad_step_mid (cfg : Config) (now : Nat) (k : Char) (buf : List Char) (t0 : Nat)
    (hk : k ≠ '#') (hlen : buf.length < 3)
    (ht : isTimeout now t0 KP_TIMEOUT_MS = false ∨ buf = []) :
    keypadCheckPassword cfg now ⟨some k, buf, t0⟩ =
      (0, ⟨none, buf ++ [k], now % U32⟩) := by
  unfold keypadCheckPassword keypadGetKey
  have hto : ¬ (0 < buf.length ∧ isTimeout now t0 KP_TIMEOUT_MS) := by
    rcases ht with h | h
    · simp [h]
    · simp [h]
  rw [if_neg hto]
  simp only
  rw [if_neg hk]
  have h1 : buf.length < PASS_LEN := by
    unfold PASS_LEN; omega
  rw [if_pos h1]
  have h2 : ¬ ((buf ++ [k]).length = PASS_LEN) := by
    simp [PASS_LEN]; omega
  simp only [List.length_append, List.length_cons, List.length_nil]
  rw [if_neg (by simpa using h2)]

theorem keypad_step_last (cfg : Config) (now : Nat) (k : Char) (buf : List Char) (t0 : Nat)
    (hk : k ≠ '#') (hlen : buf.length = 3)
    (ht : isTimeout now t0 KP_TIMEOUT_MS = false) :
    keypadCheckPassword cfg now ⟨some k, buf, t0⟩ =
      ((if String.mk (buf ++ [k]) == cfg.door_pin then (1 : Int) else -1),
       ⟨none, [], now % U32⟩) := by
  unfold keypadCheckPassword keypadGetKey securityCheckPassword
  have hto : ¬ (0 < buf.length ∧ isTimeout now t0 KP_TIMEOUT_MS) := by simp [ht]
  rw [if_neg hto]
  simp only
  rw [if_neg hk]
  have h1 : buf.length < PASS_LEN := by unfold PASS_LEN; omega
  rw [if_pos h1]
  have h2 : (buf ++ [k]).length = PASS_LEN := by simp [PASS_LEN, hlen]
  rw [if_pos h2]
  split <;> rfl

theorem feed_four (cfg : Config) (now : Nat) (a b c d : Char)
    (ha : a ≠ '#') (hb : b ≠ '#') (hc : c ≠ '#') (hd : d ≠ '#') :
    feedKeys cfg now freshKeypad [a, b, c, d] =
      ((if String.mk [a, b, c, d] == cfg.door_pin then (1 : Int) else -1),
       ⟨none, [], now % U32⟩) := by
  simp only [feedKeys, freshKeypad]
  rw [keypad_step_mid cfg now a [] 0 ha (by simp) (Or.inr rfl)]
  simp only [List.cons_append, List.nil_append]
  rw [keypad_step_mid cfg now b [a] (now % U32) hb (by simp)
      (Or.inl (isTimeout_keypad_refresh now))]
  simp only [List.cons_append, List.nil_append]
  rw [keypad_step_mid cfg now c [a, b] (now % U32) hc (by simp)
      (Or.inl (isTimeout_keypad_refresh now))]
  simp only [List.cons_append, List.nil_append]
  rw [keypad_step_last cfg now d [a, b, c] (now % U32) hd (by simp)
      (isTimeout_keypad_refresh now)]
  simp only [List.cons_append, List.nil_append]

theorem list_len4 {α : Type} {l : List α} (h : l.length = 4) :
    ∃ a b c d, l = [a, b, c, d] := by
  rcases l with _ | ⟨a, l⟩
  · simp at h
  rcases l with _ | ⟨b, l⟩
  · simp at h
  rcases l with _ | ⟨c, l⟩
  · simp at h
  rcases l with _ | ⟨d, l⟩
  · simp at h
  rcases l with _ | ⟨x, l⟩
  · exact ⟨a, b, c, d, rfl⟩
  · simp at h

/-- C3 counterexample: "111#" is a 4-character string drawn from the keypad
charset {0-9, A-D, *, #}; after `Storage_UpdatePIN("111#")`, submitting it
key-by-key returns the abort/trigger code 2 on the `#` key — never the
match result 1 — because `Keypad_CheckPassword` consumes `#` as the abort
key before it can ever enter the comparison buffer. -/
theorem c3_counterexample :
    ("111#".data.length = 4 ∧ "111#".data.all (fun c => c ∈ keypadChars) = true)
    ∧ (feedKeys (updatePIN flashOk defaultStorage "111#").2.cache 3000
        freshKeypad "111#".data).1 = 2
    ∧ (feedKeys (updatePIN flashOk defaultStorage "111#").2.cache 3000
        freshKeypad "111#".data).1 ≠ 1 := by
  refine ⟨⟨rfl, by decide⟩, by decide, by decide⟩

/-- C3 (amended): for every 4-character PIN `p` drawn from the keypad
charset without the abort key — {0-9, A-D, *} — `Storage_UpdatePIN(p)`
followed by a fresh key-by-key submission of `p` through
`Keypad_CheckPassword` yields the match result 1, and submitting any other
4-character sequence from that charset yields the mismatch result -1.
(PINs containing `#` are excluded: `#` aborts entry and can never be
matched.) -/
theorem c3_pin_roundtrip (fo : FlashOutcome) (st : StorageSt) (now : Nat)
    (p q : List Char)
    (hp4 : p.length = 4) (hq4 : q.length = 4)
    (hp : ∀ c ∈ p, c ∈ pinChars) (hq : ∀ c ∈ q, c ∈ pinChars) :
    (feedKeys (updatePIN fo st (String.mk p)).2.cache now freshKeypad p).1 = 1
    ∧ (q ≠ p →
       (feedKeys (updatePIN fo st (String.mk p)).2.cache now freshKeypad q).1 = -1) := by
  have hlen : ¬ 4 < (String.mk p).length := by
    have he : (String.mk p).length = p.length := rfl
    omega
  have hpin : (updatePIN fo st (String.mk p)).2.cache.door_pin = String.mk p :=
    by rw [updatePIN_cache fo st _ hlen]
  obtain ⟨a, b, c, d, rfl⟩ := list_len4 hp4
  obtain ⟨e, f, g, i, rfl⟩ := list_len4 hq4
  have ha := mem_pinChars_ne_hash (hp a (by simp))
  have hb := mem_pinChars_ne_hash (hp b (by simp))
  have hc := mem_pinChars_ne_hash (hp c (by simp))
  have hd := mem_pinChars_ne_hash (hp d (by simp))
  constructor
  · rw [feed_four _ _ _ _ _ _ ha hb hc hd, hpin]
    simp
  · intro hne
    have hqe := mem_pinChars_ne_hash (hq e (by simp))
    have hqf := mem_pinChars_ne_hash (hq f (by simp))
    have hqg := mem_pinChars_ne_hash (hq g (by simp))
    have hqi := mem_pinChars_ne_hash (hq i (by simp))
    rw [feed_four _ _ _ _ _ _ hqe hqf hqg hqi, hpin]
    have hbne : (String.mk [e, f, g, i] == String.mk [a, b, c, d]) = false := by
      rw [beq_eq_false_iff_ne]
      intro hEq
      apply hne
      injection hEq
    rw [hbne]
    rfl

/-- C3 witness: the concrete PIN "1234" round-trips to a match and the
wrong attempt "1235" yields a mismatch. -/
theorem c3_pin_roundtrip_witness :
    (feedKeys (updatePIN flashOk defaultStorage
        (String.mk ['1', '2', '3', '4'])).2.cache 3000 freshKeypad
        ['1', '2', '3', '4']).1 = 1
    ∧ (feedKeys (updatePIN flashOk defaultStorage
        (String.mk ['1', '2', '3', '4'])).2.cache 3000 freshKeypad
        ['1', '2', '3', '5']).1 = -1 :=
  ⟨(c3_pin_roundtrip flashOk defaultStorage 3000 ['1', '2', '3', '4']
      ['1', '2', '3', '5'] rfl rfl (by decide) (by decide)).1,
   (c3_pin_roundtrip flashOk defaultStorage 3000 ['1', '2', '3', '4']
      ['1', '2', '3', '5'] rfl rfl (by decide) (by decide)).2 (by decide)⟩

/-! ## Orchestrator lemmas: the brute-force/lockout invariant -/

theorem SecInv_checkBruteForce (s : SecState) (t : Nat) (h : s.failedAttempts ≤ 2) :
    SecInv (checkBruteForce s t) := by
  unfold checkBruteForce SecInv
  have hm : (s.failedAttempts + 1) % 256 = s.failedAttempts + 1 :=
    Nat.mod_eq_of_lt (by omega)
  rw [hm]
  have h3 : s.failedAttempts + 1 ≤ 3 := by omega
  split_ifs with hc
  · exact ⟨fun hx => absurd rfl hx, h3⟩
  · have h2 : s.failedAttempts + 1 ≤ 2 := by omega
    exact ⟨fun _ => h2, h3⟩

theorem SecInv_enterDisarmed (s : SecState) (t : Nat) : SecInv (enterDisarmed s t) :=
  ⟨fun _ => Nat.zero_le _, Nat.zero_le _⟩

theorem armedStep_inv (w : World) (t : Nat) (hf : w.sec.failedAttempts ≤ 2) :
    SecInv (armedStep w t).sec := by
  unfold armedStep
  rcases hkp : keypadCheckPassword w.cfg t w.keypad with ⟨kp, ks⟩
  simp only [hkp, rfidGetLastScanResult]
  split_ifs
  all_goals first
    | exact SecInv_enterDisarmed _ _
    | exact SecInv_checkBruteForce _ _ hf
    | exact ⟨fun _ => hf, Nat.le_succ_of_le hf⟩

theorem entryDelayStep_inv (w : World) (t : Nat) (hf : w.sec.failedAttempts ≤ 2) :
    SecInv (entryDelayStep w t).sec := by
  unfold entryDelayStep
  rcases hca : checkAuth w.cfg t w.keypad w.rfid with ⟨auth, ks, rf⟩
  simp only [hca]
  split_ifs
  all_goals first
    | exact SecInv_enterDisarmed _ _
    | exact SecInv_checkBruteForce _ _ hf
    | exact ⟨fun _ => hf, Nat.le_succ_of_le hf⟩

theorem triggeredStep_inv (w : World) (t : Nat) (hf : w.sec.failedAttempts ≤ 2) :
    SecInv (triggeredStep w t).sec := by
  unfold triggeredStep
  rcases hca : checkAuth w.cfg t w.keypad w.rfid with ⟨auth, ks, rf⟩
  simp only [hca]
  split_ifs
  all_goals first
    | exact SecInv_enterDisarmed _ _
    | exact SecInv_checkBruteForce _ _ hf
    | exact ⟨fun _ => hf, Nat.le_succ_of_le hf⟩

theorem lockedStep_inv (w : World) (t : Nat) (hs : w.sec.currentState = SysState.locked)
    (hle : w.sec.failedAttempts ≤ 3) : SecInv (lockedStep w t).sec := by
  simp only [lockedStep, rfidGetLastScanResult, keypadGetKey]
  split_ifs
  all_goals first
    | exact ⟨fun _ => Nat.zero_le _, Nat.zero_le _⟩
    | exact ⟨fun hne => absurd hs hne, hle⟩

theorem exitDelayStep_inv (w : World) (t : Nat) (hf : w.sec.failedAttempts ≤ 2) :
    SecInv (exitDelayStep w t).sec := by
  simp only [exitDelayStep, rfidGetLastScanResult, keypadGetKey]
  split_ifs
  all_goals exact ⟨fun _ => hf, Nat.le_succ_of_le hf⟩

theorem disarmedStep_inv (w : World) (t : Nat) (hf : w.sec.failedAttempts ≤ 2) :
    SecInv (disarmedStep w t).sec := by
  simp only [disarmedStep]
  split_ifs
  all_goals exact ⟨fun _ => hf, Nat.le_succ_of_le hf⟩

theorem step_SecInv (w : World) (now : Nat) (h : SecInv w.sec) :
    SecInv (securityUpdate w now).sec := by
  unfold securityUpdate
  by_cases hg : now % U32 < 2000
  · simpa [hg] using h
  rw [if_neg hg]
  rcases h with ⟨hnl, hle⟩
  split
  · exact armedStep_inv w _ (hnl (by simp_all))
  · exact entryDelayStep_inv w _ (hnl (by simp_all))
  · exact triggeredStep_inv w _ (hnl (by simp_all))
  · exact lockedStep_inv w _ (by assumption) hle
  · exact exitDelayStep_inv w _ (hnl (by simp_all))
  · exact disarmedStep_inv w _ (hnl (by simp_all))

theorem Reachable_SecInv (w : World) (h : Reachable w) : SecInv w.sec := by
  induction h with
  | boot w0 now h0 =>
    refine ⟨fun _ => ?_, ?_⟩ <;> simp [securityInit, h0, initialSecState]
  | env w0 w1 _ hsec ih => rw [hsec]; exact ih
  | step w0 now _ ih => exact step_SecInv w0 now ih

/-! ## Orchestrator lemmas: the counter is cleared on entry to Disarmed -/

theorem checkBruteForce_spec (s : SecState) (t : Nat) (hf : s.failedAttempts ≤ 2) :
    (checkBruteForce s t).failedAttempts = s.failedAttempts + 1
    ∧ (s.failedAttempts + 1 = 3 →
        (checkBruteForce s t).currentState = SysState.locked
        ∧ (checkBruteForce s t).alarmVolume = 50) := by
  unfold checkBruteForce
  have hm : (s.failedAttempts + 1) % 256 = s.failedAttempts + 1 :=
    Nat.mod_eq_of_lt (by omega)
  rw [hm]
  split_ifs with hc
  · exact ⟨rfl, fun _ => ⟨rfl, rfl⟩⟩
  · exact ⟨rfl, fun h3 => absurd h3.ge hc⟩

theorem armedStep_disarm_reset (w : World) (t : Nat)
    (hpre : w.sec.currentState ≠ SysState.disarmed) :
    (armedStep w t).sec.currentState = SysState.disarmed →
    (armedStep w t).sec.failedAttempts = 0 := by
  rcases hkp : keypadCheckPassword w.cfg t w.keypad with ⟨kp, ks⟩
  simp only [armedStep, hkp, rfidGetLastScanResult]
  split_ifs
  all_goals intro hpost
  all_goals first
    | rfl
    | exact hpost.elim
    | (exfalso
       unfold checkBruteForce at hpost
       split_ifs at hpost
       all_goals simp_all)
    | (exfalso; simp_all)

theorem entryDelayStep_disarm_reset (w : World) (t : Nat)
    (hpre : w.sec.currentState ≠ SysState.disarmed) :
    (entryDelayStep w t).sec.currentState = SysState.disarmed →
    (entryDelayStep w t).sec.failedAttempts = 0 := by
  rcases hca : checkAuth w.cfg t w.keypad w.rfid with ⟨auth, ks, rf⟩
  simp only [entryDelayStep, hca]
  split_ifs
  all_goals intro hpost
  all_goals first
    | rfl
    | exact hpost.elim
    | (exfalso
       first
         | (unfold checkBruteForce at hpost
            split_ifs at hpost
            all_goals simp_all)
         | simp_all)

theorem triggeredStep_disarm_reset (w : World) (t : Nat)
    (hpre : w.sec.currentState ≠ SysState.disarmed) :
    (triggeredStep w t).sec.currentState = SysState.disarmed →
    (triggeredStep w t).sec.failedAttempts = 0 := by
  rcases hca : checkAuth w.cfg t w.keypad w.rfid with ⟨auth, ks, rf⟩
  simp only [triggeredStep, hca]
  split_ifs
  all_goals intro hpost
  all_goals first
    | rfl
    | exact hpost.elim
    | (exfalso
       first
         | (unfold checkBruteForce at hpost
            split_ifs at hpost
            all_goals simp_all)
         | simp_all)

theorem lockedStep_disarm_reset (w : World) (t : Nat)
    (hpre : w.sec.currentState ≠ SysState.disarmed) :
    (lockedStep w t).sec.currentState = SysState.disarmed →
    (lockedStep w t).sec.failedAttempts = 0 := by
  simp only [lockedStep, rfidGetLastScanResult, keypadGetKey]
  split_ifs
  all_goals intro hpost
  all_goals first | rfl | exact hpost.elim | (exfalso; simp_all)

theorem exitDelayStep_disarm_reset (w : World) (t : Nat)
    (hpre : w.sec.currentState ≠ SysState.disarmed) :
    (exitDelayStep w t).sec.currentState = SysState.disarmed →
    (exitDelayStep w t).sec.failedAttempts = 0 := by
  simp only [exitDelayStep, rfidGetLastScanResult, keypadGetKey]
  split_ifs
  all_goals intro hpost
  all_goals first | rfl | exact hpost.elim | (exfalso; simp_all)

theorem step_disarm_reset (w : World) (now : Nat)
    (hpre : w.sec.currentState ≠ SysState.disarmed) :
    (securityUpdate w now).sec.currentState = SysState.disarmed →
    (securityUpdate w now).sec.failedAttempts = 0 := by
  unfold securityUpdate
  by_cases hg : now % U32 < 2000
  · rw [if_pos hg]
    intro hpost
    exact absurd hpost hpre
  rw [if_neg hg]
  split
  · exact armedStep_disarm_reset w _ hpre
  · exact entryDelayStep_disarm_reset w _ hpre
  · exact triggeredStep_disarm_reset w _ hpre
  · exact lockedStep_disarm_reset w _ hpre
  · exact exitDelayStep_disarm_reset w _ hpre
  · rename_i heq
    exact absurd heq hpre

/-! ## C1 — brute-force policy -/

/-- C1: in every reachable non-locked orchestrator state the failed-attempt
counter is at most 2, so invoking `Check_Brute_Force` on an invalid
authentication increments it by exactly one and, as soon as it reaches 3,
forces `STATE_LOCKED` with the alarm volume at the maximum 50; the counter
is reset to zero on every transition into `STATE_DISARMED` (successful
authentication); and concretely, three invalid attempts from `STATE_ARMED`
without an intervening valid one leave the system locked at volume 50. -/
theorem c1_brute_force_policy :
    (∀ w, Reachable w → w.sec.currentState ≠ SysState.locked →
        w.sec.failedAttempts ≤ 2)
    ∧ (∀ s t, s.failedAttempts ≤ 2 →
        (checkBruteForce s t).failedAttempts = s.failedAttempts + 1
        ∧ (s.failedAttempts + 1 = 3 →
            (checkBruteForce s t).currentState = SysState.locked
            ∧ (checkBruteForce s t).alarmVolume = 50))
    ∧ (∀ w now, w.sec.currentState ≠ SysState.disarmed →
        (securityUpdate w now).sec.currentState = SysState.disarmed →
        (securityUpdate w now).sec.failedAttempts = 0)
    ∧ (tripleInvalid.sec.currentState = SysState.locked
       ∧ tripleInvalid.sec.alarmVolume = 50) :=
  ⟨fun w h => (Reachable_SecInv w h).1, checkBruteForce_spec, step_disarm_reset, by decide⟩

/-- C1 witness: the counter is within bound right after boot; from 2 failed
attempts a third locks the system at volume 50; a valid card scan from
`STATE_ARMED` disarms with the counter cleared. -/
theorem c1_brute_force_policy_witness :
    (securityInit bootWorld 0).sec.failedAttempts ≤ 2
    ∧ (checkBruteForce { initialSecState with failedAttempts := 2 } 2000).failedAttempts =
        ({ initialSecState with failedAttempts := 2 } : SecState).failedAttempts + 1
    ∧ (checkBruteForce { initialSecState with failedAttempts := 2 } 2000).currentState =
        SysState.locked
    ∧ (checkBruteForce { initialSecState with failedAttempts := 2 } 2000).alarmVolume = 50
    ∧ (securityUpdate armedGoodCardWorld 2000).sec.failedAttempts = 0 :=
  ⟨c1_brute_force_policy.1 (securityInit bootWorld 0) (Reachable.boot bootWorld 0 rfl)
     (by decide),
   (c1_brute_force_policy.2.1 { initialSecState with failedAttempts := 2 } 2000
     (by decide)).1,
   ((c1_brute_force_policy.2.1 { initialSecState with failedAttempts := 2 } 2000
     (by decide)).2 (by decide)).1,
   ((c1_brute_force_policy.2.1 { initialSecState with failedAttempts := 2 } 2000
     (by decide)).2 (by decide)).2,
   c1_brute_force_policy.2.2.1 armedGoodCardWorld 2000 (by decide) (by decide)⟩

/-! ## C2 — the Locked state drains inputs and expires to Triggered -/

theorem locked_sec_eq (w : World) (now : Nat) (hg : ¬ now % U32 < 2000)
    (hs : w.sec.currentState = SysState.locked) :
    (securityUpdate w now).sec = lockedSecNext w.sec (now % U32) := by
  unfold securityUpdate lockedStep lockedSecNext
  rw [if_neg hg, hs]
  simp only [rfidGetLastScanResult, keypadGetKey]
  split_ifs
  all_goals simp_all

/-- C2: while locked (past the startup window, as any locked cycle is),
every `Security_Update` cycle clears the card-scan one-shot and the pending
keypad key without evaluating them — the successor orchestrator state is a
function of the orchestrator state alone, independent of any pending
credential — and exactly when 10000 ms have elapsed since entering Locked
the state becomes `STATE_TRIGGERED` with the failed-attempt counter reset
to zero (the events having been flushed again). -/
theorem c2_locked_drains :
    (∀ w now, 2000 ≤ now % U32 → w.sec.currentState = SysState.locked →
       (securityUpdate w now).rfid.lastValidResult = 0
       ∧ (securityUpdate w now).keypad.pressedKey = none
       ∧ (securityUpdate w now).sec.currentState =
           (if isTimeout (now % U32) w.sec.stateEntryTime 10000 then SysState.triggered
            else SysState.locked)
       ∧ (isTimeout (now % U32) w.sec.stateEntryTime 10000 = true →
           (securityUpdate w now).sec.failedAttempts = 0))
    ∧ (∀ w1 w2 now, w1.sec = w2.sec → w1.sec.currentState = SysState.locked →
        (securityUpdate w1 now).sec = (securityUpdate w2 now).sec) := by
  constructor
  · intro w now hg hs
    unfold securityUpdate lockedStep
    have hguard : ¬ (now % U32 < 2000) := by omega
    rw [if_neg hguard, hs]
    simp only [rfidGetLastScanResult, keypadGetKey]
    split_ifs
    all_goals simp_all
  · intro w1 w2 now h12 hs
    by_cases hguard : now % U32 < 2000
    · unfold securityUpdate
      rw [if_pos hguard, if_pos hguard]
      exact h12
    · rw [locked_sec_eq w1 now hguard hs,
          locked_sec_eq w2 now hguard (by rw [← h12]; exact hs), h12]

/-- C2 witness: a concrete locked world with a pending authorized card and a
pending key: the cycle at 2500 ms drains both and stays locked; the cycle
at 12500 ms (10 s elapsed) moves to Triggered with the counter cleared; and
the successor orchestrator state ignores the pending inputs. -/
theorem c2_locked_drains_witness :
    ((securityUpdate lockedWorld 2500).rfid.lastValidResult = 0
     ∧ (securityUpdate lockedWorld 2500).keypad.pressedKey = none
     ∧ (securityUpdate lockedWorld 2500).sec.currentState =
         (if isTimeout (2500 % U32) lockedWorld.sec.stateEntryTime 10000 then
            SysState.triggered
          else SysState.locked)
     ∧ (isTimeout (2500 % U32) lockedWorld.sec.stateEntryTime 10000 = true →
         (securityUpdate lockedWorld 2500).sec.failedAttempts = 0))
    ∧ (securityUpdate lockedWorld 12500).sec.failedAttempts = 0
    ∧ (securityUpdate lockedWorld 2500).sec =
        (securityUpdate { lockedWorld with rfid := rfidInit, keypad := freshKeypad }
          2500).sec :=
  ⟨c2_locked_drains.1 lockedWorld 2500 (by decide) rfl,
   (c2_locked_drains.1 lockedWorld 12500 (by decide) rfl).2.2.2 (by decide),
   c2_locked_drains.2 lockedWorld
     { lockedWorld with rfid := rfidInit, keypad := freshKeypad } 2500 rfl rfl⟩

end SecuritySystem
